import Mathlib

/-!
# Secure File Storage System — verification of the core routes

Shallow embedding of the auth routes (`register`/`login`/`refresh`/`logout`),
the file routes (`upload`/list/`download`/delete/get) and the bearer-token
guard of the Api-Secure-File-Storage-System server.

External collaborators are modelled explicitly:
* MongoDB collections become Lean lists (`List User`, `List FileRecord`);
  `_id` is the collection's unique primary key.
* process environment variables become `String` values where `""` plays the
  role of "unset" (JavaScript treats the empty string and `undefined`
  identically in every truthiness test these routes perform).
* JWTs become `SignedToken` structures: a real JWT string is a base64
  encoding of its payload and issue time together with a signature determined
  by the signing secret, so token strings are in bijection with
  (payload, secret, iat, expiry) tuples; string equality on tokens is
  structure equality here.
* bcrypt comparison is passed in as an abstract boolean function.
* fallible awaited calls (S3 put/delete, Mongoose save) get explicit
  fault-injection flags so that the catch branches of the handlers are part
  of the model.
-/

namespace SecureStore

/-! ## JWT model (jsonwebtoken) -/

/-- The claim set `{id, email, username}` signed into every token
(`src/unnamed/part_000`, the `payload` object of the login handler). -/
structure Claims where
  id : String
  email : String
  username : String
deriving DecidableEq, Repr

/-- A signed JWT. A concrete JWT string determines and is determined by its
payload, its issue time (`iat`, seconds), its lifetime (`expiresIn`, seconds)
and the secret that produced its signature. -/
structure SignedToken where
  payload : Claims
  secret : String
  iat : Nat
  expiresIn : Nat
deriving DecidableEq, Repr

/-- `jwt.sign(payload, secret, { expiresIn })` at time `now`. -/
def jwtSign (payload : Claims) (secret : String) (now expiresIn : Nat) : SignedToken :=
  { payload := payload, secret := secret, iat := now, expiresIn := expiresIn }

/-- `jwt.verify(token, secret)` at time `now`: succeeds (returning the decoded
claims) iff the signature matches `secret` and the token is not expired;
otherwise it throws, which callers model as `none`. -/
def jwtVerify (tok : SignedToken) (secret : String) (now : Nat) : Option Claims :=
  if tok.secret = secret && decide (now < tok.iat + tok.expiresIn) then some tok.payload
  else none

/-! ## User collection and auth routes (`src/unnamed/part_000`) -/

/-- A document of the `User` collection (`src/unnamed/part_001`):
`password` stores the bcrypt hash, `refreshToken` the single currently
valid refresh token, if any. -/
structure User where
  _id : String
  username : String
  email : String
  password : String
  refreshToken : Option SignedToken
deriving DecidableEq, Repr

/-- Outcome of `POST /login`: either an error response (status, message) or
the success body `{accessToken, refreshToken, user}`. -/
inductive LoginResult
  | err (status : Nat) (message : String)
  | ok (accessToken refreshToken : SignedToken) (id username email : String)
deriving DecidableEq, Repr

/-- The `POST /login` handler. `bcompare` models `bcrypt.compare`;
`jwtSecret`/`jwtRefreshSecret` are `process.env.JWT_SECRET` /
`process.env.JWT_REFRESH_SECRET` (`""` = unset); `now` is the request time.
Returns the response together with the user collection after the handler's
`user.save()`. -/
def login (bcompare : String → String → Bool) (db : List User)
    (email password : String) (jwtSecret jwtRefreshSecret : String)
    (now : Nat) : LoginResult × List User :=
  if email = "" || password = "" then
    (.err 400 "Email and password are required", db)
  else
    match db.find? (fun u => u.email == email) with
    | none => (.err 401 "Invalid credentials", db)
    | some user =>
      if !(bcompare password user.password) then
        (.err 401 "Invalid credentials", db)
      else if jwtSecret = "" || jwtRefreshSecret = "" then
        (.err 500 "JWT secrets not configured", db)
      else
        let payload : Claims := { id := user._id, email := user.email, username := user.username }
        let accessToken := jwtSign payload jwtSecret now 900
        let refreshToken := jwtSign payload jwtRefreshSecret now 604800
        let db' := db.map (fun u =>
          if u._id == user._id then { u with refreshToken := some refreshToken } else u)
        (.ok accessToken refreshToken user._id user.username user.email, db')

/-- Outcome of `POST /refresh`: an error response, or the success body
`{accessToken}` (nothing else is returned). -/
inductive RefreshResult
  | err (status : Nat) (message : String)
  | ok (accessToken : SignedToken)
deriving DecidableEq, Repr

/-- The `POST /refresh` handler. `refreshToken` is the body field (`none` =
absent). Returns the response together with the (never modified) user
collection. -/
def refresh (db : List User) (refreshToken : Option SignedToken)
    (jwtSecret jwtRefreshSecret : String) (now : Nat) : RefreshResult × List User :=
  match refreshToken with
  | none => (.err 400 "Refresh token required", db)
  | some tok =>
    if jwtRefreshSecret = "" || jwtSecret = "" then
      (.err 500 "JWT secrets not configured", db)
    else
      match jwtVerify tok jwtRefreshSecret now with
      | none => (.err 403 "Invalid or expired refresh token", db)
      | some decoded =>
        match db.find? (fun u => u._id == decoded.id) with
        | none => (.err 403 "Invalid refresh token", db)
        | some user =>
          if user.refreshToken ≠ some tok then
            (.err 403 "Invalid refresh token", db)
          else
            let payload : Claims :=
              { id := user._id, email := user.email, username := user.username }
            (.ok (jwtSign payload jwtSecret now 900), db)

/-! ## Bearer-token guard (`authenticate`, `src/src/config/aws.ts`) -/

/-- JavaScript `header.split(' ')`: split on every single space, keeping
empty segments. -/
def splitSp : List Char → List (List Char)
  | [] => [[]]
  | c :: rest =>
    match splitSp rest with
    | [] => [[]]
    | h :: t => if c = ' ' then [] :: h :: t else (c :: h) :: t

/-- `authHeader && authHeader.split(' ')[1]` followed by the `!token` test:
`none` exactly when the guard rejects with "Access token required". -/
def extractToken (authHeader : Option String) : Option String :=
  match authHeader with
  | none => none
  | some h =>
    if h = "" then none
    else
      match (splitSp h.data).get? 1 with
      | none => none
      | some seg => if seg = [] then none else some (String.mk seg)

/-- Outcome of the `authenticate` middleware. -/
inductive AuthOutcome
  | err (status : Nat) (message : String)
  | ok (claims : Claims)
deriving DecidableEq, Repr

/-- The `authenticate` middleware. `decode` models `jwt.verify` on the raw
token string (`none` = the verification threw `JsonWebTokenError`);
`jwtSecret` is `process.env.JWT_SECRET` (`""` = unset). -/
def authenticate (decode : String → String → Option Claims)
    (authHeader : Option String) (jwtSecret : String) : AuthOutcome :=
  match extractToken authHeader with
  | none => .err 401 "Access token required"
  | some token =>
    if jwtSecret = "" then .err 500 "JWT secret not configured"
    else
      match decode token jwtSecret with
      | none => .err 403 "Invalid or expired token"
      | some claims => .ok claims

/-! ## File collection and helpers (`src/src/routes/files.ts`,
`src/src/models/File.ts`) -/

/-- A document of the `File` collection. -/
structure FileRecord where
  _id : String
  filename : String
  originalName : String
  size : Nat
  url : String
  s3Key : String
  contentType : String
  fileType : String
  folder : String
  userId : String
  uploadTime : Nat
deriving DecidableEq, Repr

/-- Does `pat` occur at the head of `l`? -/
def headMatch : List Char → List Char → Bool
  | [], _ => true
  | _ :: _, [] => false
  | p :: ps, c :: cs => p == c && headMatch ps cs

/-- JavaScript `String.prototype.includes`: `pat` occurs contiguously
somewhere in `mimetype`. -/
def mimeIncludes (mimetype pat : String) : Bool :=
  (List.range (mimetype.data.length + 1)).any
    (fun i => headMatch pat.data (mimetype.data.drop i))

/-- `getFileType` helper of `files.ts`. -/
def getFileType (mimetype : String) : String :=
  if mimetype.startsWith "image/" then "image"
  else if mimetype.startsWith "video/" then "video"
  else if mimetype.startsWith "audio/" then "audio"
  else if mimeIncludes mimetype "pdf" || mimeIncludes mimetype "document"
      || mimeIncludes mimetype "text" then "document"
  else if mimeIncludes mimetype "zip" || mimeIncludes mimetype "rar"
      || mimeIncludes mimetype "tar" then "archive"
  else "other"

/-- `folder.replace(/^\/+|\/+$/g, '')`: remove every leading and every
trailing slash. -/
def sanitizeFolder (folder : String) : String :=
  String.mk (((folder.data.dropWhile (· == '/')).reverse.dropWhile (· == '/')).reverse)

/-- `generateS3Key` helper of `files.ts`. -/
def generateS3Key (username folder filename : String) : String :=
  let sanitizedFolder := sanitizeFolder folder
  let folderPath := if sanitizedFolder ≠ "" then sanitizedFolder ++ "/" else ""
  "users/" ++ username ++ "/" ++ folderPath ++ filename

/-- `file.originalname.split('.').pop() || ''`. -/
def fileExtension (originalname : String) : String :=
  (originalname.splitOn ".").getLastD ""

/-- The authenticated identity attached by the guard (`req.user`). -/
structure AuthUser where
  id : String
  email : String
  username : String
deriving DecidableEq, Repr

/-- `req.user.username || req.user.email || req.user.id` (`""` is falsy). -/
def uploadNamespace (u : AuthUser) : String :=
  if u.username ≠ "" then u.username
  else if u.email ≠ "" then u.email
  else u.id

/-! ## Upload (`POST /upload`) -/

/-- One file of an upload batch together with its per-file environment:
`uuid` is the value `uuidv4()` returns for this iteration, `assignedId` the
`_id` MongoDB assigns on save, and the two flags inject faults into the two
awaited calls inside the per-file `try` block (`s3.upload(...).promise()` and
`newFile.save()`). -/
structure UploadFile where
  originalname : String
  mimetype : String
  size : Nat
  content : String
  uuid : String
  assignedId : String
  blobWriteFails : Bool
  metadataSaveFails : Bool
deriving DecidableEq, Repr

/-- An object of the blob backend (S3): key, content type and bytes. -/
structure BlobObject where
  key : String
  contentType : String
  body : String
deriving DecidableEq, Repr

/-- `uploadResult.Location`: the backend-reported URL of a stored object,
a function of bucket and key. -/
def s3Location (bucket key : String) : String := bucket ++ "/" ++ key

/-- The `File` document built in the success path of one upload iteration. -/
def recordOf (user : AuthUser) (bucket folder : String) (now : Nat)
    (f : UploadFile) : FileRecord :=
  let uniqueFilename := f.uuid ++ "." ++ fileExtension f.originalname
  let s3Key := generateS3Key (uploadNamespace user) folder uniqueFilename
  { _id := f.assignedId
    filename := uniqueFilename
    originalName := f.originalname
    size := f.size
    url := s3Location bucket s3Key
    s3Key := s3Key
    contentType := f.mimetype
    fileType := getFileType f.mimetype
    folder := folder
    userId := user.id
    uploadTime := now }

/-- The blob object written by one upload iteration when `s3.upload`
succeeds. -/
def blobOf (user : AuthUser) (folder : String) (f : UploadFile) : BlobObject :=
  { key := generateS3Key (uploadNamespace user) folder
      (f.uuid ++ "." ++ fileExtension f.originalname)
    contentType := f.mimetype
    body := f.content }

/-- One iteration of the upload loop under the fault model: first component
is the blob written to S3 (if `s3.upload` succeeded), second the metadata
record persisted (if `newFile.save()` also succeeded). A rejection of either
awaited call lands in the per-file `catch`, which only logs. -/
def processFile (user : AuthUser) (bucket folder : String) (now : Nat)
    (f : UploadFile) : Option BlobObject × Option FileRecord :=
  if f.blobWriteFails then (none, none)
  else
    let blob := blobOf user folder f
    if f.metadataSaveFails then (some blob, none)
    else (some blob, some (recordOf user bucket folder now f))

/-- The per-file JSON pushed onto `uploadedFiles`. -/
structure UploadedSummary where
  id : String
  filename : String
  originalName : String
  size : Nat
  contentType : String
  fileType : String
  folder : String
  uploadTime : Nat
deriving DecidableEq, Repr

/-- Projection from the saved document to its response summary. -/
def summaryOf (r : FileRecord) : UploadedSummary :=
  { id := r._id, filename := r.filename, originalName := r.originalName
    size := r.size, contentType := r.contentType, fileType := r.fileType
    folder := r.folder, uploadTime := r.uploadTime }

/-- Response of `POST /upload`. -/
inductive UploadResult
  | err (status : Nat) (message : String)
  | created (message : String) (files : List UploadedSummary)
deriving DecidableEq, Repr

/-- Everything observable about one run of the upload handler: the HTTP
response, the blob objects written to S3 and the metadata records
persisted. -/
structure UploadOutcome where
  response : UploadResult
  blobs : List BlobObject
  records : List FileRecord
deriving DecidableEq, Repr

/-- The `POST /upload` handler. `awsConfigured` is `validateAWSConfig()`;
`folderField` is `req.body.folder` (`""` = absent, defaulted to `"/"`). -/
def uploadBatch (user : AuthUser) (bucket : String) (awsConfigured : Bool)
    (files : List UploadFile) (folderField : String) (now : Nat) : UploadOutcome :=
  if !awsConfigured then
    { response := .err 500 "AWS S3 configuration is incomplete", blobs := [], records := [] }
  else
    let folder := if folderField = "" then "/" else folderField
    if files.isEmpty then
      { response := .err 400 "No files uploaded", blobs := [], records := [] }
    else
      let results := files.map (processFile user bucket folder now)
      let blobs := results.filterMap Prod.fst
      let records := results.filterMap Prod.snd
      let uploadedFiles := records.map summaryOf
      if uploadedFiles.isEmpty then
        { response := .err 500 "Failed to upload any files", blobs := blobs, records := records }
      else
        { response := .created
            ("Successfully uploaded " ++ toString uploadedFiles.length ++ " file(s)")
            uploadedFiles
          blobs := blobs
          records := records }

/-! ## List, get, download, delete -/

/-- `File.findOne({ _id: id, userId: uid })`: id and owner are conjoined in
every single-record lookup. -/
def fileFindOne (db : List FileRecord) (id uid : String) : Option FileRecord :=
  db.find? (fun f => f._id == id && f.userId == uid)

/-- `.select('-s3Key')` on a single document. -/
def stripS3Key (f : FileRecord) : FileRecord := { f with s3Key := "" }

/-- The Mongo query object built by the list handler. -/
structure ListQuery where
  userId : String
  folder : Option String
  fileType : Option String
deriving DecidableEq, Repr

/-- Query construction of `GET /`: a filter is added only when the query
parameter is a non-empty string whose trim is non-empty. -/
def buildListQuery (uid : String) (folder fileType : Option String) : ListQuery :=
  { userId := uid
    folder := match folder with
      | some s => if s ≠ "" && s.trim ≠ "" then some s else none
      | none => none
    fileType := match fileType with
      | some s => if s ≠ "" && s.trim ≠ "" then some s else none
      | none => none }

/-- Whether a document matches the query object. -/
def matchesQuery (q : ListQuery) (f : FileRecord) : Bool :=
  f.userId == q.userId
    && (match q.folder with | none => true | some v => f.folder == v)
    && (match q.fileType with | none => true | some v => f.fileType == v)

/-- The pagination block of the list response. -/
structure Pagination where
  page : Nat
  limit : Nat
  totalFiles : Nat
  totalPages : Nat
  hasNext : Bool
  hasPrev : Bool
deriving DecidableEq, Repr

/-- Response body of `GET /`. -/
structure ListResponse where
  files : List FileRecord
  pagination : Pagination
deriving DecidableEq, Repr

/-- The `GET /` (list) handler: filter by the query object, sort by
`uploadTime` descending (a stable sort, as the store's), skip/limit, strip
`s3Key`, and compute the pagination block (`Math.ceil(total/limit)`). -/
def listFiles (db : List FileRecord) (uid : String) (folder fileType : Option String)
    (page limit : Nat) : ListResponse :=
  let q := buildListQuery uid folder fileType
  let matched := db.filter (matchesQuery q)
  let sorted := List.insertionSort (fun a b => b.uploadTime ≤ a.uploadTime) matched
  let skip := (page - 1) * limit
  let pageFiles := ((sorted.drop skip).take limit).map stripS3Key
  let totalFiles := matched.length
  let totalPages := (totalFiles + limit - 1) / limit
  { files := pageFiles
    pagination :=
      { page := page, limit := limit, totalFiles := totalFiles, totalPages := totalPages
        hasNext := decide (page < totalPages), hasPrev := decide (1 < page) } }

/-- Response of `GET /:id`. -/
inductive GetFileResult
  | err (status : Nat) (message : String)
  | ok (file : FileRecord)
deriving DecidableEq, Repr

/-- The `GET /:id` handler. -/
def getFileInfo (db : List FileRecord) (id uid : String) : GetFileResult :=
  match fileFindOne db id uid with
  | none => .err 404 "File not found"
  | some file => .ok (stripS3Key file)

/-- The argument object of `s3.getSignedUrl('getObject', ...)`; the produced
URL is a function of these fields. -/
structure SignedUrl where
  bucket : String
  key : String
  expires : Nat
  responseContentDisposition : String
deriving DecidableEq, Repr

/-- Response of `GET /:id/download`. -/
inductive DownloadResult
  | err (status : Nat) (message : String)
  | ok (url : SignedUrl) (filename : String) (expiresIn : Nat)
deriving DecidableEq, Repr

/-- The `GET /:id/download` handler. -/
def getDownloadLink (db : List FileRecord) (id uid bucket : String) : DownloadResult :=
  match fileFindOne db id uid with
  | none => .err 404 "File not found"
  | some file =>
    let signedUrl : SignedUrl :=
      { bucket := bucket, key := file.s3Key, expires := 3600
        responseContentDisposition :=
          "attachment; filename=\"" ++ file.originalName ++ "\"" }
    .ok signedUrl file.originalName 3600

/-- Response of `DELETE /:id`. -/
inductive DeleteResult
  | err (status : Nat) (message : String)
  | ok (message filename : String)
deriving DecidableEq, Repr

/-- Observable outcome of one run of the delete handler: response, the file
collection afterwards, and the console error log. -/
structure DeleteOutcome where
  response : DeleteResult
  db : List FileRecord
  log : List String
deriving DecidableEq, Repr

/-- The `DELETE /:id` handler under the fault model: `s3DeleteFails` injects
a rejection into `s3.deleteObject(...).promise()`, whose `catch` only logs;
`File.findByIdAndDelete` then removes the document with that primary key
regardless. -/
def deleteFile (db : List FileRecord) (id uid : String)
    (s3DeleteFails : Bool) : DeleteOutcome :=
  match fileFindOne db id uid with
  | none => { response := .err 404 "File not found", db := db, log := [] }
  | some file =>
    let log := if s3DeleteFails then ["S3 deletion error"] else []
    let db' := db.filter (fun f => !(f._id == file._id))
    { response := .ok "File deleted successfully" file.originalName
      db := db', log := log }

/-! ## Helper lemmas -/

/-- `find?` over a `map` by a function that does not change the tested
field. -/
theorem find?_map_invariant {α : Type} (g : α → α) (p : α → Bool) (l : List α)
    (hg : ∀ a, p (g a) = p a) : (l.map g).find? p = (l.find? p).map g := by
  induction l with
  | nil => rfl
  | cons a l ih =>
    by_cases h : p a = true
    · rw [List.map_cons, List.find?_cons_of_pos _ (by rw [hg]; exact h),
        List.find?_cons_of_pos _ h, Option.map_some']
    · rw [List.map_cons, List.find?_cons_of_neg _ (by rw [hg]; simpa using h),
        List.find?_cons_of_neg _ (by simpa using h), ih]

/-- `splitSp` never returns the empty list of segments. -/
theorem splitSp_ne_nil (l : List Char) : splitSp l ≠ [] := by
  cases l with
  | nil => simp [splitSp]
  | cons c rest =>
    cases hr : splitSp rest with
    | nil => simp [splitSp, hr]
    | cons h t =>
      simp only [splitSp, hr]
      split <;> simp

/-- A space-free string is a single segment. -/
theorem splitSp_no_space (l : List Char) (h : ' ' ∉ l) : splitSp l = [l] := by
  induction l with
  | nil => rfl
  | cons c rest ih =>
    have hc : ¬ c = ' ' := fun hc => h (hc ▸ List.mem_cons_self c rest)
    have hr : ' ' ∉ rest := fun hm => h (List.mem_cons_of_mem c hm)
    simp [splitSp, ih hr, hc]

/-- Splitting at the first space of `a ++ ' ' :: b` when `a` is space-free. -/
theorem splitSp_append (a b : List Char) (h : ' ' ∉ a) :
    splitSp (a ++ ' ' :: b) = a :: splitSp b := by
  induction a with
  | nil =>
    obtain ⟨h0, t0, ht⟩ := List.exists_cons_of_ne_nil (splitSp_ne_nil b)
    simp [splitSp, ht]
  | cons c as ih =>
    have hc : ¬ c = ' ' := fun hc => h (hc ▸ List.mem_cons_self c as)
    have ha : ' ' ∉ as := fun hm => h (List.mem_cons_of_mem c hm)
    simp [splitSp, ih ha, hc]

/-- The trailing-slash run of `dropWhile`-sanitized folder data. -/
theorem sanitizeFolder_dropWhile (folder : String) :
    ∃ b, folder.data.dropWhile (· == '/')
      = (sanitizeFolder folder).data ++ List.replicate b '/' := by
  set d1 := folder.data.dropWhile (· == '/') with hd1
  refine ⟨(d1.reverse.takeWhile (· == '/')).length, ?_⟩
  have hrep : d1.reverse.takeWhile (· == '/')
      = List.replicate (d1.reverse.takeWhile (· == '/')).length '/' :=
    List.eq_replicate_of_mem (fun c hc => by simpa using List.mem_takeWhile_imp hc)
  have htr : (d1.reverse.takeWhile (· == '/')).reverse
      = List.replicate (d1.reverse.takeWhile (· == '/')).length '/' := by
    conv_lhs => rw [hrep]
    rw [List.reverse_replicate]
  calc d1 = d1.reverse.reverse := (List.reverse_reverse d1).symm
    _ = (d1.reverse.takeWhile (· == '/') ++ d1.reverse.dropWhile (· == '/')).reverse := by
        rw [List.takeWhile_append_dropWhile]
    _ = (d1.reverse.dropWhile (· == '/')).reverse
          ++ (d1.reverse.takeWhile (· == '/')).reverse := by
        rw [List.reverse_append]
    _ = (sanitizeFolder folder).data
          ++ List.replicate (d1.reverse.takeWhile (· == '/')).length '/' := by
        rw [htr]; rfl

/-- The supplied folder is a run of slashes, then the sanitized folder, then
a run of slashes. -/
theorem sanitizeFolder_decomp (folder : String) :
    ∃ a b, folder.data
      = List.replicate a '/' ++ (sanitizeFolder folder).data ++ List.replicate b '/' := by
  obtain ⟨b, hb⟩ := sanitizeFolder_dropWhile folder
  refine ⟨(folder.data.takeWhile (· == '/')).length, b, ?_⟩
  have hrep : folder.data.takeWhile (· == '/')
      = List.replicate (folder.data.takeWhile (· == '/')).length '/' :=
    List.eq_replicate_of_mem (fun c hc => by simpa using List.mem_takeWhile_imp hc)
  calc folder.data
      = folder.data.takeWhile (· == '/') ++ folder.data.dropWhile (· == '/') := by
        rw [List.takeWhile_append_dropWhile]
    _ = List.replicate (folder.data.takeWhile (· == '/')).length '/'
          ++ ((sanitizeFolder folder).data ++ List.replicate b '/') := by rw [← hrep, hb]
    _ = List.replicate (folder.data.takeWhile (· == '/')).length '/'
          ++ (sanitizeFolder folder).data ++ List.replicate b '/' := by
        rw [List.append_assoc]

/-- The sanitized folder does not start with a slash. -/
theorem sanitizeFolder_head (folder : String) :
    (sanitizeFolder folder).data.head? ≠ some '/' := by
  obtain ⟨b, hb⟩ := sanitizeFolder_dropWhile folder
  intro hcon
  have hsne : (sanitizeFolder folder).data ≠ [] := by
    intro h
    rw [h] at hcon
    simp at hcon
  have hd1ne : folder.data.dropWhile (· == '/') ≠ [] := by
    rw [hb]
    simp [hsne]
  have hhead : (folder.data.dropWhile (· == '/')).head? = some '/' := by
    rw [hb, List.head?_append_of_ne_nil _ hsne, hcon]
  have hnp := List.head_dropWhile_not (· == '/') folder.data hd1ne
  rw [List.head?_eq_head hd1ne] at hhead
  have : (folder.data.dropWhile (· == '/')).head hd1ne = '/' := by
    exact Option.some.inj hhead
  rw [this] at hnp
  simp at hnp

/-- The sanitized folder does not end with a slash. -/
theorem sanitizeFolder_last (folder : String) :
    (sanitizeFolder folder).data.getLast? ≠ some '/' := by
  intro hcon
  set d2 := (folder.data.dropWhile (· == '/')).reverse.dropWhile (· == '/') with hd2
  have hs : (sanitizeFolder folder).data = d2.reverse := rfl
  rw [hs] at hcon
  have hlast : d2.head? = some '/' := by
    calc d2.head? = d2.reverse.reverse.head? := by rw [List.reverse_reverse]
      _ = d2.reverse.getLast? := List.head?_reverse d2.reverse
      _ = some '/' := hcon
  have hd2ne : d2 ≠ [] := by
    intro h
    rw [h] at hlast
    simp at hlast
  have hnp := List.head_dropWhile_not (· == '/')
    (folder.data.dropWhile (· == '/')).reverse hd2ne
  rw [List.head?_eq_head hd2ne] at hlast
  have : d2.head hd2ne = '/' := Option.some.inj hlast
  rw [this] at hnp
  simp at hnp

end SecureStore

namespace SecureStore

/-! ## The claims -/

/-- C7: a login attempt that fails authentication yields the identical
response — status 401 and the generic message "Invalid credentials" —
whether the email was unknown or the password hash comparison failed, so the
two causes are indistinguishable to the caller. -/
theorem login_failure_indistinguishable
    (bcompare : String → String → Bool) (db : List User)
    (email1 password1 email2 password2 js1 jrs1 js2 jrs2 : String)
    (now1 now2 : Nat)
    (h1e : email1 ≠ "") (h1p : password1 ≠ "")
    (h2e : email2 ≠ "") (h2p : password2 ≠ "")
    (hunknown : db.find? (fun u => u.email == email1) = none)
    (user : User)
    (hfound : db.find? (fun u => u.email == email2) = some user)
    (hmismatch : bcompare password2 user.password = false) :
    (login bcompare db email1 password1 js1 jrs1 now1).1 = .err 401 "Invalid credentials"
    ∧ (login bcompare db email2 password2 js2 jrs2 now2).1 = .err 401 "Invalid credentials"
    ∧ (login bcompare db email1 password1 js1 jrs1 now1).1
        = (login bcompare db email2 password2 js2 jrs2 now2).1 := by
  refine ⟨?_, ?_, ?_⟩ <;>
    simp [login, h1e, h1p, h2e, h2p, hunknown, hfound, hmismatch]

/-- Witness for C7 at a concrete store. -/
theorem login_failure_indistinguishable_witness :
    (login (fun p h => p == h)
        [{ _id := "1", username := "alice", email := "a@x.com",
           password := "pw", refreshToken := none }]
        "b@x.com" "pw" "s" "r" 0).1 = .err 401 "Invalid credentials"
    ∧ (login (fun p h => p == h)
        [{ _id := "1", username := "alice", email := "a@x.com",
           password := "pw", refreshToken := none }]
        "a@x.com" "wrong" "s" "r" 0).1 = .err 401 "Invalid credentials" := by
  have h := login_failure_indistinguishable (fun p h => p == h)
    [{ _id := "1", username := "alice", email := "a@x.com",
       password := "pw", refreshToken := none }]
    "b@x.com" "pw" "a@x.com" "wrong" "s" "r" "s" "r" 0 0
    (by decide) (by decide) (by decide) (by decide) (by decide)
    { _id := "1", username := "alice", email := "a@x.com",
      password := "pw", refreshToken := none }
    (by decide) (by decide)
  exact ⟨h.1, h.2.1⟩

/-- C6: a refresh call whose token passes signature/expiry verification
fails (403 "Invalid refresh token") when the decoded user does not exist or
when the stored refresh token is not exactly equal to the presented one; on
success it returns a newly signed access token only, and the user collection
— in particular the stored refresh token — is unchanged (no rotation). -/
theorem refresh_requires_matching_stored_token
    (db : List User) (tok : SignedToken) (js jrs : String) (now : Nat)
    (c : Claims)
    (hjs : js ≠ "") (hjrs : jrs ≠ "")
    (hv : jwtVerify tok jrs now = some c) :
    (db.find? (fun u => u._id == c.id) = none →
      refresh db (some tok) js jrs now = (.err 403 "Invalid refresh token", db))
    ∧ (∀ user, db.find? (fun u => u._id == c.id) = some user →
        user.refreshToken ≠ some tok →
        refresh db (some tok) js jrs now = (.err 403 "Invalid refresh token", db))
    ∧ (∀ user, db.find? (fun u => u._id == c.id) = some user →
        user.refreshToken = some tok →
        refresh db (some tok) js jrs now =
          (.ok (jwtSign ⟨user._id, user.email, user.username⟩ js now 900), db)) := by
  refine ⟨fun hnone => ?_, fun user hfind hne => ?_, fun user hfind heq => ?_⟩
  · simp [refresh, hjs, hjrs, hv, hnone]
  · simp [refresh, hjs, hjrs, hv, hfind, hne]
  · simp [refresh, hjs, hjrs, hv, hfind, heq]

/-- Witness for C6: a matching stored token yields a fresh access token and
leaves the store unchanged. -/
theorem refresh_requires_matching_stored_token_witness :
    refresh
      [{ _id := "1", username := "alice", email := "a@x.com", password := "pw",
         refreshToken := some (jwtSign ⟨"1", "a@x.com", "alice"⟩ "r" 0 604800) }]
      (some (jwtSign ⟨"1", "a@x.com", "alice"⟩ "r" 0 604800)) "s" "r" 10
    = (.ok (jwtSign ⟨"1", "a@x.com", "alice"⟩ "s" 10 900),
        [{ _id := "1", username := "alice", email := "a@x.com", password := "pw",
           refreshToken := some (jwtSign ⟨"1", "a@x.com", "alice"⟩ "r" 0 604800) }]) := by
  have h := refresh_requires_matching_stored_token
    [{ _id := "1", username := "alice", email := "a@x.com", password := "pw",
       refreshToken := some (jwtSign ⟨"1", "a@x.com", "alice"⟩ "r" 0 604800) }]
    (jwtSign ⟨"1", "a@x.com", "alice"⟩ "r" 0 604800) "s" "r" 10
    ⟨"1", "a@x.com", "alice"⟩ (by decide) (by decide) (by decide)
  exact h.2.2
    { _id := "1", username := "alice", email := "a@x.com", password := "pw",
      refreshToken := some (jwtSign ⟨"1", "a@x.com", "alice"⟩ "r" 0 604800) }
    (by decide) (by decide)

/-- The records persisted by the upload loop are exactly the records of the
files on which both the blob write and the metadata save succeeded, in input
order. -/
theorem upload_records_eq (user : AuthUser) (bucket folder : String) (now : Nat)
    (files : List UploadFile) :
    (files.map (processFile user bucket folder now)).filterMap Prod.snd
      = (files.filter (fun f => !f.blobWriteFails && !f.metadataSaveFails)).map
          (recordOf user bucket folder now) := by
  induction files with
  | nil => rfl
  | cons f fs ih =>
    cases hb : f.blobWriteFails <;> cases hm : f.metadataSaveFails <;>
      simp [processFile, hb, hm, ih]

/-- The blobs written by the upload loop are exactly the blobs of the files
on which the blob write succeeded, in input order. -/
theorem upload_blobs_eq (user : AuthUser) (bucket folder : String) (now : Nat)
    (files : List UploadFile) :
    (files.map (processFile user bucket folder now)).filterMap Prod.fst
      = (files.filter (fun f => !f.blobWriteFails)).map (blobOf user folder) := by
  induction files with
  | nil => rfl
  | cons f fs ih =>
    cases hb : f.blobWriteFails <;> cases hm : f.metadataSaveFails <;>
      simp [processFile, hb, hm, ih]

/-- C8: listing with an empty-string `folder` or `fileType` query parameter
returns exactly the same response — result set and pagination block — as
listing with that parameter absent. -/
theorem list_empty_string_filter_is_no_filter
    (db : List FileRecord) (uid : String) (folder fileType : Option String)
    (page limit : Nat) :
    listFiles db uid (some "") fileType page limit
        = listFiles db uid none fileType page limit
    ∧ listFiles db uid folder (some "") page limit
        = listFiles db uid folder none page limit := by
  constructor <;> simp [listFiles, buildListQuery]

/-- C3: when the record with the requested id is owned by someone other than
the caller (or does not exist), the single-record get, download-link and
delete operations all return the same 404 "File not found" — bitwise the
response they give when no record with that id exists at all — and the
lookup conjoining id and owner finds nothing; delete leaves the store
untouched. -/
theorem ownership_scoped_lookups_not_found
    (db : List FileRecord) (id caller bucket : String) (fault : Bool)
    (howner : ∀ f ∈ db, f._id = id → f.userId ≠ caller) :
    fileFindOne db id caller = none
    ∧ getFileInfo db id caller = .err 404 "File not found"
    ∧ getDownloadLink db id caller bucket = .err 404 "File not found"
    ∧ (deleteFile db id caller fault).response = .err 404 "File not found"
    ∧ (deleteFile db id caller fault).db = db
    ∧ getFileInfo db id caller
        = getFileInfo (db.filter (fun f => !(f._id == id))) id caller
    ∧ getDownloadLink db id caller bucket
        = getDownloadLink (db.filter (fun f => !(f._id == id))) id caller bucket
    ∧ (deleteFile db id caller fault).response
        = (deleteFile (db.filter (fun f => !(f._id == id))) id caller fault).response := by
  have hnone : fileFindOne db id caller = none := by
    apply List.find?_eq_none.2
    intro f hf
    simp only [Bool.and_eq_true, beq_iff_eq, not_and]
    exact fun h1 => howner f hf h1
  have hnone2 : fileFindOne (db.filter (fun f => !(f._id == id))) id caller = none := by
    apply List.find?_eq_none.2
    intro f hf
    have h2 := (List.mem_filter.1 hf).2
    simp only [Bool.not_eq_true', beq_eq_false_iff_ne] at h2
    simp only [Bool.and_eq_true, beq_iff_eq, not_and]
    exact fun h1 => absurd h1 h2
  refine ⟨hnone, ?_, ?_, ?_, ?_, ?_, ?_, ?_⟩ <;>
    simp [getFileInfo, getDownloadLink, deleteFile, hnone, hnone2]

/-- Witness for C3: a one-record store owned by `"bob"`, queried by
`"alice"`. -/
theorem ownership_scoped_lookups_not_found_witness :
    getFileInfo
      [{ _id := "f1", filename := "u.png", originalName := "cat.png", size := 3,
         url := "b/users/bob/u.png", s3Key := "users/bob/u.png",
         contentType := "image/png", fileType := "image", folder := "/",
         userId := "bob", uploadTime := 5 }] "f1" "alice" = .err 404 "File not found"
    ∧ getDownloadLink
      [{ _id := "f1", filename := "u.png", originalName := "cat.png", size := 3,
         url := "b/users/bob/u.png", s3Key := "users/bob/u.png",
         contentType := "image/png", fileType := "image", folder := "/",
         userId := "bob", uploadTime := 5 }] "f1" "alice" "b" = .err 404 "File not found" := by
  have h := ownership_scoped_lookups_not_found
    [{ _id := "f1", filename := "u.png", originalName := "cat.png", size := 3,
       url := "b/users/bob/u.png", s3Key := "users/bob/u.png",
       contentType := "image/png", fileType := "image", folder := "/",
       userId := "bob", uploadTime := 5 }] "f1" "alice" "b" false (by decide)
  exact ⟨h.2.1, h.2.2.1⟩

/-- C5: deleting an existing caller-owned record succeeds — returning the
record's original display name — whether or not the blob deletion fails; a
blob-deletion failure is only logged; afterwards the record is gone from the
ownership-scoped lookup, from the single-record get and from every list
call for that owner. -/
theorem delete_tolerates_blob_failure
    (db : List FileRecord) (id uid : String) (file : FileRecord) (fault : Bool)
    (hfind : fileFindOne db id uid = some file) :
    (deleteFile db id uid fault).response
        = .ok "File deleted successfully" file.originalName
    ∧ (deleteFile db id uid fault).log
        = (if fault then ["S3 deletion error"] else [])
    ∧ fileFindOne (deleteFile db id uid fault).db id uid = none
    ∧ getFileInfo (deleteFile db id uid fault).db id uid = .err 404 "File not found"
    ∧ (∀ folder fileType : Option String, ∀ page limit : Nat, ∀ r : FileRecord,
        r ∈ (listFiles (deleteFile db id uid fault).db uid folder fileType page limit).files →
        ¬ r._id = id) := by
  have hid : file._id = id := by
    have h := List.find?_some hfind
    simp only [Bool.and_eq_true, beq_iff_eq] at h
    exact h.1
  have hdb : (deleteFile db id uid fault).db
      = db.filter (fun f => !(f._id == file._id)) := by
    simp [deleteFile, hfind]
  have hnone : fileFindOne (db.filter (fun f => !(f._id == file._id))) id uid = none := by
    apply List.find?_eq_none.2
    intro f hf
    have h2 := (List.mem_filter.1 hf).2
    simp only [Bool.not_eq_true', beq_eq_false_iff_ne] at h2
    simp only [Bool.and_eq_true, beq_iff_eq, not_and]
    intro h1
    exact absurd (h1.trans hid.symm) h2
  refine ⟨?_, ?_, ?_, ?_, ?_⟩
  · simp [deleteFile, hfind]
  · simp [deleteFile, hfind]
  · rw [hdb]; exact hnone
  · rw [hdb]; simp [getFileInfo, hnone]
  · intro folder fileType page limit r hr
    rw [hdb] at hr
    simp only [listFiles] at hr
    obtain ⟨r0, hr0mem, hr0eq⟩ := List.mem_map.1 hr
    have hms : r0 ∈ List.insertionSort (fun a b => b.uploadTime ≤ a.uploadTime)
        (List.filter (matchesQuery (buildListQuery uid folder fileType))
          (db.filter (fun f => !(f._id == file._id)))) :=
      List.mem_of_mem_drop (List.mem_of_mem_take hr0mem)
    have hmatched := (List.mem_insertionSort _).1 hms
    have hdb' := (List.mem_filter.1 hmatched).1
    have h2 := (List.mem_filter.1 hdb').2
    simp only [Bool.not_eq_true', beq_eq_false_iff_ne] at h2
    have hproj : r._id = r0._id := by rw [← hr0eq]; rfl
    rw [hproj]
    intro hc
    exact absurd (hc.trans hid.symm) h2

/-- Witness for C5: delete with an injected blob-deletion failure still
removes the record and reports its display name. -/
theorem delete_tolerates_blob_failure_witness :
    (deleteFile
      [{ _id := "f1", filename := "u.png", originalName := "cat.png", size := 3,
         url := "b/users/alice/u.png", s3Key := "users/alice/u.png",
         contentType := "image/png", fileType := "image", folder := "/",
         userId := "alice", uploadTime := 5 }] "f1" "alice" true).response
      = .ok "File deleted successfully" "cat.png"
    ∧ fileFindOne
        (deleteFile
          [{ _id := "f1", filename := "u.png", originalName := "cat.png", size := 3,
             url := "b/users/alice/u.png", s3Key := "users/alice/u.png",
             contentType := "image/png", fileType := "image", folder := "/",
             userId := "alice", uploadTime := 5 }] "f1" "alice" true).db "f1" "alice"
      = none := by
  have h := delete_tolerates_blob_failure
    [{ _id := "f1", filename := "u.png", originalName := "cat.png", size := 3,
       url := "b/users/alice/u.png", s3Key := "users/alice/u.png",
       contentType := "image/png", fileType := "image", folder := "/",
       userId := "alice", uploadTime := 5 }] "f1" "alice"
    { _id := "f1", filename := "u.png", originalName := "cat.png", size := 3,
      url := "b/users/alice/u.png", s3Key := "users/alice/u.png",
      contentType := "image/png", fileType := "image", folder := "/",
      userId := "alice", uploadTime := 5 } true (by decide)
  exact ⟨h.1, h.2.2.1⟩

/-- `isEmpty` is invariant under `map`. -/
theorem isEmpty_map {α β : Type} (g : α → β) (l : List α) :
    (l.map g).isEmpty = l.isEmpty := by cases l <;> rfl

/-- Closed form of the upload handler on a configured backend and a
non-empty batch. -/
theorem uploadBatch_characterization (user : AuthUser) (bucket : String)
    (files : List UploadFile) (folderField : String) (now : Nat)
    (hne : files ≠ []) :
    uploadBatch user bucket true files folderField now =
      { response :=
          if (files.filter (fun f => !f.blobWriteFails && !f.metadataSaveFails)).isEmpty
          then .err 500 "Failed to upload any files"
          else .created
            ("Successfully uploaded "
              ++ toString (files.filter
                    (fun f => !f.blobWriteFails && !f.metadataSaveFails)).length
              ++ " file(s)")
            ((files.filter (fun f => !f.blobWriteFails && !f.metadataSaveFails)).map
              (fun f => summaryOf (recordOf user bucket
                (if folderField = "" then "/" else folderField) now f)))
        blobs := (files.filter (fun f => !f.blobWriteFails)).map
            (blobOf user (if folderField = "" then "/" else folderField))
        records := (files.filter (fun f => !f.blobWriteFails && !f.metadataSaveFails)).map
            (recordOf user bucket (if folderField = "" then "/" else folderField) now) } := by
  have hie : files.isEmpty = false := by
    cases files
    · exact absurd rfl hne
    · rfl
  unfold uploadBatch
  simp only [Bool.not_true, Bool.false_eq_true, if_false, hie, upload_records_eq,
    upload_blobs_eq, isEmpty_map, List.map_map, List.length_map]
  split <;> rename_i h <;> simp [h, Function.comp]

/-- C1: in an authenticated batch upload of at least one file, each file is
processed independently in order — a per-file failure is caught and skipped —
so the persisted records, and the files listed in the response, are exactly
those of the files whose blob write and metadata save both succeeded, in
order; the handler answers 500 "Failed to upload any files" precisely when
every file failed, and 201 with the successes otherwise. -/
theorem upload_isolates_per_file_failures
    (user : AuthUser) (bucket : String) (files : List UploadFile)
    (folderField : String) (now : Nat)
    (folder : String) (hfolder : folder = if folderField = "" then "/" else folderField)
    (ok : List UploadFile)
    (hok : ok = files.filter (fun f => !f.blobWriteFails && !f.metadataSaveFails))
    (hne : files ≠ []) :
    (uploadBatch user bucket true files folderField now).records
        = ok.map (recordOf user bucket folder now)
    ∧ (ok = [] → (uploadBatch user bucket true files folderField now).response
        = .err 500 "Failed to upload any files")
    ∧ (ok ≠ [] → (uploadBatch user bucket true files folderField now).response
        = .created ("Successfully uploaded " ++ toString ok.length ++ " file(s)")
            (ok.map (fun f => summaryOf (recordOf user bucket folder now f)))) := by
  subst hfolder; subst hok
  rw [uploadBatch_characterization user bucket files folderField now hne]
  by_cases hoke :
      files.filter (fun f => !f.blobWriteFails && !f.metadataSaveFails) = []
  · simp [hoke]
  · have hie : (files.filter
        (fun f => !f.blobWriteFails && !f.metadataSaveFails)).isEmpty = false := by
      rw [List.isEmpty_eq_false]
      exact hoke
    simp [hie, hoke]

/-- Witness for C1: a two-file batch whose first file fails its blob write
persists exactly the second file and answers 201 listing only it. -/
theorem upload_isolates_per_file_failures_witness :
    (uploadBatch ⟨"u1", "a@x.com", "alice"⟩ "b" true
        [⟨"cat.png", "image/png", 3, "abc", "g1", "id1", true, false⟩,
         ⟨"dog.png", "image/png", 4, "def", "g2", "id2", false, false⟩] "" 7).records
      = [recordOf ⟨"u1", "a@x.com", "alice"⟩ "b" "/" 7
          ⟨"dog.png", "image/png", 4, "def", "g2", "id2", false, false⟩]
    ∧ (uploadBatch ⟨"u1", "a@x.com", "alice"⟩ "b" true
        [⟨"cat.png", "image/png", 3, "abc", "g1", "id1", true, false⟩,
         ⟨"dog.png", "image/png", 4, "def", "g2", "id2", false, false⟩] "" 7).response
      = .created "Successfully uploaded 1 file(s)"
          [summaryOf (recordOf ⟨"u1", "a@x.com", "alice"⟩ "b" "/" 7
            ⟨"dog.png", "image/png", 4, "def", "g2", "id2", false, false⟩)] := by
  have h := upload_isolates_per_file_failures ⟨"u1", "a@x.com", "alice"⟩ "b"
    [⟨"cat.png", "image/png", 3, "abc", "g1", "id1", true, false⟩,
     ⟨"dog.png", "image/png", 4, "def", "g2", "id2", false, false⟩] "" 7
    "/" (by decide)
    [⟨"dog.png", "image/png", 4, "def", "g2", "id2", false, false⟩] (by decide)
    (by decide)
  refine ⟨by simpa using h.1, ?_⟩
  have h2 := h.2.2 (by decide)
  simpa using h2

/-- C2: every metadata record persisted by an upload run comes from a file
whose blob write (and metadata save) succeeded, and the blob carrying the
record's `s3Key` and content type is among the blobs the run actually wrote:
no metadata record is ever created for a blob write that did not succeed. -/
theorem metadata_record_requires_blob_write
    (user : AuthUser) (bucket : String) (cfg : Bool) (files : List UploadFile)
    (folderField : String) (now : Nat) (folder : String)
    (hfolder : folder = if folderField = "" then "/" else folderField)
    (r : FileRecord)
    (hr : r ∈ (uploadBatch user bucket cfg files folderField now).records) :
    ∃ f ∈ files, f.blobWriteFails = false ∧ f.metadataSaveFails = false
      ∧ r = recordOf user bucket folder now f
      ∧ blobOf user folder f ∈ (uploadBatch user bucket cfg files folderField now).blobs
      ∧ (blobOf user folder f).key = r.s3Key
      ∧ (blobOf user folder f).contentType = r.contentType := by
  subst hfolder
  cases cfg with
  | false => simp [uploadBatch] at hr
  | true =>
    by_cases hne : files = []
    · subst hne; simp [uploadBatch] at hr
    · rw [uploadBatch_characterization user bucket files folderField now hne] at hr ⊢
      obtain ⟨f, hfmem, hfeq⟩ := List.mem_map.1 hr
      obtain ⟨hfin, hflags⟩ := List.mem_filter.1 hfmem
      simp only [Bool.and_eq_true, Bool.not_eq_true'] at hflags
      subst hfeq
      refine ⟨f, hfin, hflags.1, hflags.2, rfl, ?_, rfl, rfl⟩
      exact List.mem_map.2 ⟨f, List.mem_filter.2 ⟨hfin, by simp [hflags.1]⟩, rfl⟩

/-- Witness for C2 at a concrete two-file batch with one blob-write
failure. -/
theorem metadata_record_requires_blob_write_witness :
    ∃ f ∈ [(⟨"cat.png", "image/png", 3, "abc", "g1", "id1", true, false⟩ : UploadFile),
           ⟨"dog.png", "image/png", 4, "def", "g2", "id2", false, false⟩],
      f.blobWriteFails = false ∧ f.metadataSaveFails = false
      ∧ recordOf ⟨"u1", "a@x.com", "alice"⟩ "b" "/" 7
          ⟨"dog.png", "image/png", 4, "def", "g2", "id2", false, false⟩
        = recordOf ⟨"u1", "a@x.com", "alice"⟩ "b" "/" 7 f
      ∧ blobOf ⟨"u1", "a@x.com", "alice"⟩ "/" f
          ∈ (uploadBatch ⟨"u1", "a@x.com", "alice"⟩ "b" true
              [⟨"cat.png", "image/png", 3, "abc", "g1", "id1", true, false⟩,
               ⟨"dog.png", "image/png", 4, "def", "g2", "id2", false, false⟩] "" 7).blobs
      ∧ (blobOf ⟨"u1", "a@x.com", "alice"⟩ "/" f).key
          = (recordOf ⟨"u1", "a@x.com", "alice"⟩ "b" "/" 7
              ⟨"dog.png", "image/png", 4, "def", "g2", "id2", false, false⟩).s3Key
      ∧ (blobOf ⟨"u1", "a@x.com", "alice"⟩ "/" f).contentType
          = (recordOf ⟨"u1", "a@x.com", "alice"⟩ "b" "/" 7
              ⟨"dog.png", "image/png", 4, "def", "g2", "id2", false, false⟩).contentType := by
  exact metadata_record_requires_blob_write ⟨"u1", "a@x.com", "alice"⟩ "b" true
    [⟨"cat.png", "image/png", 3, "abc", "g1", "id1", true, false⟩,
     ⟨"dog.png", "image/png", 4, "def", "g2", "id2", false, false⟩] "" 7
    "/" (by decide)
    (recordOf ⟨"u1", "a@x.com", "alice"⟩ "b" "/" 7
      ⟨"dog.png", "image/png", 4, "def", "g2", "id2", false, false⟩)
    (by simp [uploadBatch, processFile])

/-- C9: the generated filename is the fresh identifier followed by the
original file's extension, and the blob key follows the deterministic
template `users/<owner-namespace>/<sanitized-folder>/<generated-filename>`,
where the sanitized folder is the supplied folder with all leading and
trailing slashes stripped (it neither starts nor ends with a slash, and an
all-slash or empty folder contributes no path segment). -/
theorem blob_key_follows_template (username folder uuid ext : String)
    (user : AuthUser) (bucket : String) (now : Nat) (f : UploadFile) :
    generateS3Key username folder (uuid ++ "." ++ ext)
        = "users/" ++ username ++ "/"
          ++ (if sanitizeFolder folder = "" then "" else sanitizeFolder folder ++ "/")
          ++ (uuid ++ "." ++ ext)
    ∧ (∃ a b, folder.data = List.replicate a '/' ++ (sanitizeFolder folder).data
          ++ List.replicate b '/')
    ∧ (sanitizeFolder folder).data.head? ≠ some '/'
    ∧ (sanitizeFolder folder).data.getLast? ≠ some '/'
    ∧ (recordOf user bucket folder now f).filename
        = f.uuid ++ "." ++ fileExtension f.originalname
    ∧ (recordOf user bucket folder now f).s3Key
        = generateS3Key (uploadNamespace user) folder
            (f.uuid ++ "." ++ fileExtension f.originalname) := by
  refine ⟨?_, sanitizeFolder_decomp folder, sanitizeFolder_head folder,
    sanitizeFolder_last folder, rfl, rfl⟩
  by_cases hs : sanitizeFolder folder = "" <;> simp [generateS3Key, hs]

/-- Witness for C9 at `folder = "//docs//"`. -/
theorem blob_key_follows_template_witness :
    generateS3Key "alice" "//docs//" ("g1" ++ "." ++ "png")
        = "users/" ++ "alice" ++ "/"
          ++ (if sanitizeFolder "//docs//" = "" then ""
              else sanitizeFolder "//docs//" ++ "/")
          ++ ("g1" ++ "." ++ "png")
    ∧ (sanitizeFolder "//docs//").data.head? ≠ some '/'
    ∧ (sanitizeFolder "//docs//").data.getLast? ≠ some '/' := by
  have h := blob_key_follows_template "alice" "//docs//" "g1" "png"
    ⟨"u1", "a@x.com", "alice"⟩ "b" 7
    ⟨"cat.png", "image/png", 3, "abc", "g1", "id1", false, false⟩
  exact ⟨h.1, h.2.2.1, h.2.2.2.1⟩

/-- The guard's token extraction takes the second space-separated segment,
whatever the first segment is. -/
theorem extractToken_second_segment (scheme token : String)
    (hs : ' ' ∉ scheme.data) (ht : ' ' ∉ token.data) (htne : token ≠ "") :
    extractToken (some (scheme ++ " " ++ token)) = some token := by
  have hdata : (scheme ++ " " ++ token).data = scheme.data ++ ' ' :: token.data := by
    have hsp : (" " : String).data = [' '] := by decide
    rw [String.data_append, String.data_append, hsp, List.append_assoc]
    rfl
  have hne : ¬ (scheme ++ " " ++ token) = "" := by
    intro h
    have hd := congrArg String.data h
    rw [hdata] at hd
    simp at hd
  have htd : token.data ≠ [] := by
    intro h
    exact htne (String.ext h)
  rw [extractToken, if_neg hne, hdata, splitSp_append _ _ hs, splitSp_no_space _ ht]
  simp [htd]

/-- C10: the guard reads the credential as the second space-separated
segment of the Authorization header without checking the scheme word — any
`"<word> <token>"` header whose token decodes is accepted — while a header
with no second segment (in particular a bare token with no scheme word) is
rejected as a missing token for every secret configuration, including the
missing-secret one: the missing-token check precedes the missing-secret
check. -/
theorem authenticate_ignores_scheme_word
    (decode : String → String → Option Claims)
    (scheme token secret : String) (claims : Claims)
    (hs : ' ' ∉ scheme.data) (ht : ' ' ∉ token.data) (htne : token ≠ "")
    (hsec : secret ≠ "") (hdec : decode token secret = some claims) :
    authenticate decode (some (scheme ++ " " ++ token)) secret = .ok claims
    ∧ (∀ bare : String, ' ' ∉ bare.data → ∀ s : String,
        authenticate decode (some bare) s = .err 401 "Access token required")
    ∧ authenticate decode none "" = .err 401 "Access token required" := by
  refine ⟨?_, ?_, rfl⟩
  · rw [authenticate, extractToken_second_segment scheme token hs ht htne]
    simp [hsec, hdec]
  · intro bare hb s
    have hext : extractToken (some bare) = none := by
      by_cases hbe : bare = ""
      · simp [extractToken, hbe]
      · simp [extractToken, hbe, splitSp_no_space _ hb]
    simp [authenticate, hext]

/-- Witness for C10: a `"Basic"` scheme word authenticates; a bare token is
a missing token even with no secret configured. -/
theorem authenticate_ignores_scheme_word_witness :
    authenticate
        (fun t s => if t = "tok" && s = "sec" then some ⟨"u", "e", "n"⟩ else none)
        (some ("Basic" ++ " " ++ "tok")) "sec" = .ok ⟨"u", "e", "n"⟩
    ∧ authenticate
        (fun t s => if t = "tok" && s = "sec" then some ⟨"u", "e", "n"⟩ else none)
        (some "tok") "" = .err 401 "Access token required" := by
  have h := authenticate_ignores_scheme_word
    (fun t s => if t = "tok" && s = "sec" then some ⟨"u", "e", "n"⟩ else none)
    "Basic" "tok" "sec" ⟨"u", "e", "n"⟩
    (by decide) (by decide) (by decide) (by decide) (by decide)
  exact ⟨h.1, h.2.1 "tok" (by decide) ""⟩

/-- Counterexample to C4 as universally stated: `jwt.sign` is deterministic
in payload, secret and issue second, so two logins signed at the same second
return the same refresh token, and the refresh token returned by the first
login still equals the stored value and is still accepted afterwards. -/
theorem second_login_same_second_still_refreshes :
    (login (fun p h => p == h)
        [{ _id := "1", username := "alice", email := "a@x.com",
           password := "pw", refreshToken := none }]
        "a@x.com" "pw" "s" "r" 0).1
      = .ok (jwtSign ⟨"1", "a@x.com", "alice"⟩ "s" 0 900)
            (jwtSign ⟨"1", "a@x.com", "alice"⟩ "r" 0 604800) "1" "alice" "a@x.com"
    ∧ (refresh
        ((login (fun p h => p == h)
          ((login (fun p h => p == h)
            [{ _id := "1", username := "alice", email := "a@x.com",
               password := "pw", refreshToken := none }]
            "a@x.com" "pw" "s" "r" 0).2)
          "a@x.com" "pw" "s" "r" 0).2)
        (some (jwtSign ⟨"1", "a@x.com", "alice"⟩ "r" 0 604800))
        "s" "r" 2).1
      = .ok (jwtSign ⟨"1", "a@x.com", "alice"⟩ "s" 2 900) := by
  constructor <;> rfl

/-- C4(amended): a successful login overwrites the persisted refresh token with the
newly signed one; after a second login (signed at a different time, hence a
different token) the stored value is the second token, the first login's
refresh token no longer equals it, and every refresh call presenting the
first login's refresh token fails. -/
theorem second_login_invalidates_first_refresh
    (bcompare : String → String → Bool) (db : List User)
    (email password js jrs : String) (t1 t2 : Nat) (user : User)
    (he : email ≠ "") (hp : password ≠ "")
    (hfind : db.find? (fun u => u.email == email) = some user)
    (hid : db.find? (fun u => u._id == user._id) = some user)
    (hcmp : bcompare password user.password = true)
    (hjs : js ≠ "") (hjrs : jrs ≠ "") (hne : t1 ≠ t2)
    (db2 : List User)
    (hdb2 : db2 = (login bcompare (login bcompare db email password js jrs t1).2
        email password js jrs t2).2) :
    (login bcompare db email password js jrs t1).1
      = .ok (jwtSign ⟨user._id, user.email, user.username⟩ js t1 900)
            (jwtSign ⟨user._id, user.email, user.username⟩ jrs t1 604800)
            user._id user.username user.email
    ∧ db2.find? (fun u => u._id == user._id)
      = some { user with refreshToken := some (jwtSign ⟨user._id, user.email, user.username⟩ jrs t2 604800) }
    ∧ jwtSign ⟨user._id, user.email, user.username⟩ jrs t2 604800
        ≠ jwtSign ⟨user._id, user.email, user.username⟩ jrs t1 604800
    ∧ (∀ now : Nat, ∀ a : SignedToken,
        (refresh db2
          (some (jwtSign ⟨user._id, user.email, user.username⟩ jrs t1 604800))
          js jrs now).1 ≠ .ok a) := by
  have hL1 : login bcompare db email password js jrs t1
      = (.ok (jwtSign ⟨user._id, user.email, user.username⟩ js t1 900)
           (jwtSign ⟨user._id, user.email, user.username⟩ jrs t1 604800)
           user._id user.username user.email,
         db.map (fun u => if u._id == user._id then
           { u with refreshToken := some (jwtSign ⟨user._id, user.email, user.username⟩ jrs t1 604800) }
           else u)) := by
    simp [login, he, hp, hfind, hcmp, hjs, hjrs]
  have hg1email : ∀ u : User,
      ((if u._id == user._id then
          { u with refreshToken := some (jwtSign ⟨user._id, user.email, user.username⟩ jrs t1 604800) }
        else u).email == email) = (u.email == email) := by
    intro u
    by_cases h : (u._id == user._id) = true <;> simp [h]
  have hfind1 : ((login bcompare db email password js jrs t1).2).find?
      (fun u => u.email == email)
      = some { user with refreshToken := some (jwtSign ⟨user._id, user.email, user.username⟩ jrs t1 604800) } := by
    rw [hL1]
    rw [find?_map_invariant _ _ _ hg1email, hfind, Option.map_some']
    simp
  have hL2 : login bcompare (login bcompare db email password js jrs t1).2
      email password js jrs t2
      = (.ok (jwtSign ⟨user._id, user.email, user.username⟩ js t2 900)
           (jwtSign ⟨user._id, user.email, user.username⟩ jrs t2 604800)
           user._id user.username user.email,
         ((login bcompare db email password js jrs t1).2).map
           (fun u => if u._id == user._id then
             { u with refreshToken := some (jwtSign ⟨user._id, user.email, user.username⟩ jrs t2 604800) }
             else u)) := by
    generalize hD : (login bcompare db email password js jrs t1).2 = D1 at hfind1 ⊢
    simp [login, he, hp, hfind1, hcmp, hjs, hjrs]
  have hg1id : ∀ u : User,
      ((if u._id == user._id then
          { u with refreshToken := some (jwtSign ⟨user._id, user.email, user.username⟩ jrs t1 604800) }
        else u)._id == user._id) = (u._id == user._id) := by
    intro u
    by_cases h : (u._id == user._id) = true <;> simp [h]
  have hg2id : ∀ u : User,
      ((if u._id == user._id then
          { u with refreshToken := some (jwtSign ⟨user._id, user.email, user.username⟩ jrs t2 604800) }
        else u)._id == user._id) = (u._id == user._id) := by
    intro u
    by_cases h : (u._id == user._id) = true <;> simp [h]
  have hD1 : (login bcompare db email password js jrs t1).2
      = db.map (fun u => if u._id == user._id then
          { u with refreshToken := some (jwtSign ⟨user._id, user.email, user.username⟩ jrs t1 604800) }
          else u) := by
    rw [hL1]
  have hD2 : (login bcompare (login bcompare db email password js jrs t1).2
        email password js jrs t2).2
      = ((login bcompare db email password js jrs t1).2).map
          (fun u => if u._id == user._id then
            { u with refreshToken := some (jwtSign ⟨user._id, user.email, user.username⟩ jrs t2 604800) }
            else u) := by
    rw [hL2]
  have hfind2 : db2.find? (fun u => u._id == user._id)
      = some { user with refreshToken := some (jwtSign ⟨user._id, user.email, user.username⟩ jrs t2 604800) } := by
    rw [hdb2, hD2, find?_map_invariant _ _ _ hg2id, hD1,
      find?_map_invariant _ _ _ hg1id, hid, Option.map_some', Option.map_some']
    simp
  have hr2ne : jwtSign ⟨user._id, user.email, user.username⟩ jrs t2 604800
      ≠ jwtSign ⟨user._id, user.email, user.username⟩ jrs t1 604800 := by
    intro h
    simp only [jwtSign, SignedToken.mk.injEq] at h
    exact hne (h.2.2.1.symm)
  refine ⟨by rw [hL1], hfind2, hr2ne, ?_⟩
  intro now a
  by_cases hlt : now < t1 + 604800
  · have hv : jwtVerify (jwtSign ⟨user._id, user.email, user.username⟩ jrs t1 604800)
        jrs now = some ⟨user._id, user.email, user.username⟩ := by
      simp [jwtVerify, jwtSign, hlt]
    simp [refresh, hjs, hjrs, hv, hfind2, hr2ne]
  · have hv : jwtVerify (jwtSign ⟨user._id, user.email, user.username⟩ jrs t1 604800)
        jrs now = none := by
      simp [jwtVerify, jwtSign, hlt]
    simp [refresh, hjs, hjrs, hv]

/-- Witness for C4: two logins of the same user at times 0 and 1; the
refresh token from the first login is rejected afterwards. -/
theorem second_login_invalidates_first_refresh_witness :
    (login (fun p h => p == h)
        [{ _id := "1", username := "alice", email := "a@x.com",
           password := "pw", refreshToken := none }]
        "a@x.com" "pw" "s" "r" 0).1
      = .ok (jwtSign ⟨"1", "a@x.com", "alice"⟩ "s" 0 900)
            (jwtSign ⟨"1", "a@x.com", "alice"⟩ "r" 0 604800) "1" "alice" "a@x.com"
    ∧ (refresh
        ((login (fun p h => p == h)
          ((login (fun p h => p == h)
            [{ _id := "1", username := "alice", email := "a@x.com",
               password := "pw", refreshToken := none }]
            "a@x.com" "pw" "s" "r" 0).2)
          "a@x.com" "pw" "s" "r" 1).2)
        (some (jwtSign ⟨"1", "a@x.com", "alice"⟩ "r" 0 604800))
        "s" "r" 2).1 ≠ .ok (jwtSign ⟨"1", "a@x.com", "alice"⟩ "s" 2 900) := by
  have h := second_login_invalidates_first_refresh (fun p h => p == h)
    [{ _id := "1", username := "alice", email := "a@x.com",
       password := "pw", refreshToken := none }]
    "a@x.com" "pw" "s" "r" 0 1
    { _id := "1", username := "alice", email := "a@x.com",
      password := "pw", refreshToken := none }
    (by decide) (by decide) (by decide) (by decide) (by decide)
    (by decide) (by decide) (by decide)
    ((login (fun p h => p == h)
      ((login (fun p h => p == h)
        [{ _id := "1", username := "alice", email := "a@x.com",
           password := "pw", refreshToken := none }]
        "a@x.com" "pw" "s" "r" 0).2)
      "a@x.com" "pw" "s" "r" 1).2) rfl
  exact ⟨h.1, h.2.2.2 2 (jwtSign ⟨"1", "a@x.com", "alice"⟩ "s" 2 900)⟩

end SecureStore
